import Mathlib

/-!
Shallow embedding of the celine-ai-assistant backend (the authenticated
streaming-chat pipeline, the history/attachment store and the OIDC
discovery cache), translated from `src/src/celine/assistant/` and, where the
repository keeps an older sibling implementation, from `src/app/`.

Conventions of the embedding:
* SQLite rows become Lean structures; a table is a `List` of rows kept in
  rowid (insertion) order.
* Wall-clock timestamps (`int(time.time())`) and generated UUIDs become
  explicit `Nat` / `String` parameters of each operation.
* Python truthiness on optional strings (`if s:`) is modelled by `truthy`.
* Raised exceptions become `Except`; the streaming generator's observable
  behaviour is the`List Event` it yielded plus an `Option String` carrying
  an exception that escaped the generator uncaught.
* External collaborators (retrieval, generation stream, blob deletion) are
  parameters of the pipeline functions.
-/

namespace CelineAssistant

/-- Identity as used by the route layer: `user_id` plus the parsed group
list from the claims (`auth.py`: `is_admin` splits/normalises groups; here
they arrive already as a list). -/
structure UserIdentity where
  user_id : String
  groups : List String
deriving Repr, DecidableEq

/-- `auth.is_admin`: the configured admin group appears in the identity's
groups. -/
def is_admin (adminGroup : String) (u : UserIdentity) : Bool :=
  decide (adminGroup ∈ u.groups)

/-- Row of the `attachments` table (`history.py`). -/
structure Attachment where
  id : String
  scope : String
  owner_user_id : Option String
  uri : String
  path : String
  filename : String
  content_type : Option String
  size_bytes : Nat
  caption : Option String
  created_at : Nat
deriving Repr, DecidableEq

/-- Row of the `conversations` table (`history.py`); the primary key is
`conversation_id` alone. -/
structure ConvRow where
  conversation_id : String
  user_id : String
  created_at : Nat
deriving Repr, DecidableEq

/-- Row of the `messages` table (`history.py`). -/
structure MsgRow where
  id : String
  conversation_id : String
  user_id : String
  role : String
  content : String
  created_at : Nat
deriving Repr, DecidableEq

/-- The SQLite database behind `HistoryStore`, each table in rowid order. -/
structure HistoryDB where
  conversations : List ConvRow
  messages : List MsgRow
  attachments : List Attachment
deriving Repr, DecidableEq

/-- `history.Conversation` dataclass. -/
structure Conversation where
  conversation_id : String
deriving Repr, DecidableEq

/-- Python truthiness for an optional string: `None` and `""` are falsy. -/
def truthy (s : Option String) : Option String :=
  match s with
  | some v => if v = "" then none else some v
  | none => none

/-- The `INSERT OR IGNORE INTO conversations` statement: the primary key is
the conversation id alone, so the row is inserted only when no conversation
with that id exists under any owner. -/
def insertOrIgnoreConv (db : HistoryDB) (cid user_id : String) (now : Nat) : HistoryDB :=
  if ∃ c ∈ db.conversations, c.conversation_id = cid then db
  else { db with conversations := db.conversations ++ [⟨cid, user_id, now⟩] }

/-- `HistoryStore._get_or_create`: when a (truthy) id is supplied and a row
owned by this user exists, return it; otherwise insert-or-ignore under the
supplied id or a fresh one and return a `Conversation` carrying that id. -/
def getOrCreate (db : HistoryDB) (user_id : String) (conversation_id : Option String)
    (freshId : String) (now : Nat) : Conversation × HistoryDB :=
  match truthy conversation_id with
  | some cid =>
    if ∃ c ∈ db.conversations, c.conversation_id = cid ∧ c.user_id = user_id then
      (⟨cid⟩, db)
    else
      (⟨cid⟩, insertOrIgnoreConv db cid user_id now)
  | none =>
      (⟨freshId⟩, insertOrIgnoreConv db freshId user_id now)

/-- `HistoryStore._append`: plain INSERT of a message row stamped with the
current clock value. -/
def appendMessage (db : HistoryDB) (user_id conversation_id role content : String)
    (msgId : String) (now : Nat) : HistoryDB :=
  { db with messages := db.messages ++ [⟨msgId, conversation_id, user_id, role, content, now⟩] }

/-- Stable insertion of a row into a list sorted by `created_at`: the row
goes after every row with an earlier-or-equal timestamp. -/
def insertByCreated (m : MsgRow) : List MsgRow → List MsgRow
  | [] => [m]
  | x :: xs => if x.created_at ≤ m.created_at then x :: insertByCreated m xs else m :: x :: xs

/-- `ORDER BY created_at ASC` over a row list scanned in rowid order,
as a stable sort. -/
def orderByCreated (rows : List MsgRow) : List MsgRow :=
  rows.foldl (fun acc m => insertByCreated m acc) []

/-- `HistoryStore._list_messages`: filter by user and conversation, order
by `created_at` ascending, apply `LIMIT`. -/
def listMessages (db : HistoryDB) (user_id conversation_id : String) (limit : Nat) :
    List MsgRow :=
  (orderByCreated (db.messages.filter
      (fun m => decide (m.user_id = user_id ∧ m.conversation_id = conversation_id)))).take limit

/-- `HistoryStore._get_attachment_any`: SELECT by primary key. -/
def getAttachmentAny (db : HistoryDB) (attachment_id : String) : Option Attachment :=
  db.attachments.find? (fun a => decide (a.id = attachment_id))

/-- `HistoryStore._delete_attachment_any`: read the row, delete it, return
the prior state. -/
def deleteAttachmentAnyDb (db : HistoryDB) (attachment_id : String) :
    Option Attachment × HistoryDB :=
  match getAttachmentAny db attachment_id with
  | none => (none, db)
  | some att =>
      (some att,
        { db with attachments := db.attachments.filter (fun a => !decide (a.id = attachment_id)) })

/-- An `HTTPException` as raised by the route layer. -/
structure HttpError where
  status : Nat
  detail : String
deriving Repr, DecidableEq

/-- `routes._get_attachment_authorized`: 404 on unknown id, system scope
readable by anyone, user scope only by owner or admin (else 403), any other
scope value is a 500. -/
def getAttachmentAuthorized (adminGroup : String) (db : HistoryDB) (user : UserIdentity)
    (attachment_id : String) : Except HttpError Attachment :=
  match getAttachmentAny db attachment_id with
  | none => Except.error ⟨404, "Attachment not found"⟩
  | some att =>
    if att.scope = "system" then Except.ok att
    else if att.scope = "user" then
      if att.owner_user_id = some user.user_id ∨ is_admin adminGroup user then Except.ok att
      else Except.error ⟨403, "Forbidden"⟩
    else Except.error ⟨500, "Invalid attachment scope"⟩

/-- `routes._load_authorized_attachments`: walk the requested ids; an
unknown id is skipped, a system-scope row is collected, a user-scope row is
collected when owned or the caller is admin, anything else raises 403 and
aborts the whole request. -/
def loadAuthorizedAttachments (adminGroup : String) (db : HistoryDB) (user : UserIdentity) :
    List String → Except HttpError (List Attachment)
  | [] => Except.ok []
  | attId :: rest =>
    match getAttachmentAny db attId with
    | none => loadAuthorizedAttachments adminGroup db user rest
    | some att =>
      if att.scope = "system" then
        (loadAuthorizedAttachments adminGroup db user rest).map (fun out => att :: out)
      else if att.scope = "user" ∧
          (att.owner_user_id = some user.user_id ∨ is_admin adminGroup user) then
        (loadAuthorizedAttachments adminGroup db user rest).map (fun out => att :: out)
      else Except.error ⟨403, "Forbidden attachment access"⟩

/-- `routes.delete_attachment`: 404 on unknown id, admin-only for system
scope, owner-or-admin for user scope; afterwards the metadata row is
deleted and the blob deletion is attempted, its failure logged and
swallowed. -/
def deleteAttachmentRoute (adminGroup : String) (db : HistoryDB) (user : UserIdentity)
    (attachment_id : String) (blobDelete : Except String Unit) :
    Except HttpError (String × HistoryDB) :=
  match getAttachmentAny db attachment_id with
  | none => Except.error ⟨404, "Attachment not found"⟩
  | some att =>
    if att.scope = "system" ∧ ¬ is_admin adminGroup user then
      Except.error ⟨403, "Admin only"⟩
    else if att.scope = "user" ∧ att.owner_user_id ≠ some user.user_id ∧
        ¬ is_admin adminGroup user then
      Except.error ⟨403, "Forbidden"⟩
    else
      let db2 := (deleteAttachmentAnyDb db attachment_id).2
      match blobDelete with
      | Except.ok _ => Except.ok ("deleted", db2)
      | Except.error _ => Except.ok ("deleted", db2)

/-- A context/source block as produced by `rag.node_to_source` or the
attachment context block (the numeric score is not modelled). -/
structure Source where
  source : String
  title : Option String
  text : String
deriving Repr, DecidableEq

/-- The lines contributed by one attachment in
`routes._attachment_context_block`. -/
def attachmentEntryLines (a : Attachment) : List String :=
  let fn := if a.filename = "" then "file" else a.filename
  let ct := a.content_type.getD ""
  let caption := (a.caption.getD "").trim
  ["- filename: " ++ fn]
    ++ (if ct = "" then [] else ["  content_type: " ++ ct])
    ++ ["  scope: " ++ a.scope]
    ++ (if caption = "" then ["  description: (no description available)"]
        else ["  description: " ++ caption])

/-- `routes._attachment_context_block`. -/
def attachmentContextBlock (atts : List Attachment) : Source :=
  { source := "attached_files"
    title := some "Attached files"
    text :=
      "User attached the following files. Treat these as highly relevant context for this message:\n"
        ++ String.intercalate "\n" (atts.map attachmentEntryLines).flatten }

/-- One server-sent event of the chat protocol. -/
inductive Event where
  | meta (conversation_id : String)
  | sources (payload : List Source)
  | token (fragment : String)
  | done
  | error (message : String)
deriving Repr, DecidableEq

/-- `models.ChatRequest` (celine version: no constraint on any field). -/
structure ChatRequest where
  message : String
  top_k : Int
  include_citations : Bool
  conversation_id : Option String
  attachment_ids : List String
deriving Repr, DecidableEq

/-- Pydantic validation of the app-version `ChatRequest`
(`src/app/models.py`): `message` has `min_length=1`, `top_k` has
`ge=1, le=20`; an out-of-range request is rejected before the route runs. -/
def appValidateChatRequest (message : String) (conversation_id : Option String)
    (include_citations : Bool) (top_k : Int) : Option ChatRequest :=
  if message ≠ "" ∧ 1 ≤ top_k ∧ top_k ≤ 20 then
    some ⟨message, top_k, include_citations, conversation_id, []⟩
  else none

/-- Drain the generation stream: collect yielded fragments until the
stream raises, returning the fragments seen and the raised message, if
any. -/
def consumeStream : List (Except String String) → List String × Option String
  | [] => ([], none)
  | Except.ok t :: rest =>
      let r := consumeStream rest
      (t :: r.1, r.2)
  | Except.error e :: _ => ([], some e)

/-- Observable outcome of one chat invocation: the events yielded by the
generator, an exception that escaped it uncaught (`none` on a clean close),
and the final store state. -/
structure ChatOutcome where
  events : List Event
  raised : Option String
  db : HistoryDB
deriving Repr, DecidableEq

/-- Steps 1-2 of `routes.chat` (celine version): resolve/create the
conversation, then best-effort append of the inbound user message
(`userAppendOk = false` means the INSERT raised; the exception is caught
and only logged, leaving the store unchanged). -/
def celineChatPre (db : HistoryDB) (user : UserIdentity) (req : ChatRequest)
    (freshCid userMsgId : String) (now : Nat) (userAppendOk : Bool) :
    Conversation × HistoryDB :=
  let convDb := getOrCreate db user.user_id req.conversation_id freshCid now
  let db2 :=
    if userAppendOk then
      appendMessage convDb.2 user.user_id convDb.1.conversation_id "user" req.message
        userMsgId now
    else convDb.2
  (convDb.1, db2)

/-- `routes.chat` (celine version), including its streaming generator.
Collaborators are parameters: `retrieveFn` is `rag.retrieve` composed with
`node_to_source`, `chunks` the generation stream, `userAppendOk` /
`assistantAppendOk` whether the two history INSERTs succeed. The generator
body has no exception handler: a raise from the stream escapes after the
already-yielded events. -/
def celineChat (adminGroup : String) (db : HistoryDB) (user : UserIdentity)
    (req : ChatRequest) (freshCid userMsgId assistantMsgId : String)
    (now nowAssistant : Nat) (retrieveFn : String → Int → List Source)
    (chunks : List (Except String String)) (userAppendOk assistantAppendOk : Bool) :
    Except HttpError ChatOutcome :=
  let pre := celineChatPre db user req freshCid userMsgId now userAppendOk
  let conv := pre.1
  let db2 := pre.2
  match loadAuthorizedAttachments adminGroup db2 user req.attachment_ids with
  | Except.error e => Except.error e
  | Except.ok attached =>
    let retrieved := retrieveFn req.message req.top_k
    let sources :=
      if attached.isEmpty then retrieved else attachmentContextBlock attached :: retrieved
    let head := Event.meta conv.conversation_id ::
      (if req.include_citations then [Event.sources sources] else [])
    let consumed := consumeStream chunks
    match consumed.2 with
    | none =>
      let db3 :=
        if assistantAppendOk then
          appendMessage db2 user.user_id conv.conversation_id "assistant"
            (String.join consumed.1) assistantMsgId nowAssistant
        else db2
      Except.ok ⟨head ++ consumed.1.map Event.token ++ [Event.done], none, db3⟩
    | some e =>
      Except.ok ⟨head ++ consumed.1.map Event.token, some e, db2⟩

/-- `routes.chat` of the older app version (`src/app/routes.py`): no
attachments, and the whole generator body sits in a `try` whose handler
yields an `error` event, so no exception escapes the stream. -/
def appChat (db : HistoryDB) (user : UserIdentity) (req : ChatRequest)
    (freshCid userMsgId assistantMsgId : String) (now nowAssistant : Nat)
    (retrieveFn : String → Int → List Source)
    (chunks : List (Except String String)) (userAppendOk assistantAppendOk : Bool) :
    List Event × HistoryDB :=
  let pre := celineChatPre db user req freshCid userMsgId now userAppendOk
  let conv := pre.1
  let db2 := pre.2
  let sources := retrieveFn req.message req.top_k
  let head := Event.meta conv.conversation_id ::
    (if req.include_citations then [Event.sources sources] else [])
  let consumed := consumeStream chunks
  match consumed.2 with
  | none =>
    let db3 :=
      if assistantAppendOk then
        appendMessage db2 user.user_id conv.conversation_id "assistant"
          (String.join consumed.1) assistantMsgId nowAssistant
      else db2
    (head ++ consumed.1.map Event.token ++ [Event.done], db3)
  | some e =>
    (head ++ consumed.1.map Event.token ++ [Event.error e], db2)

/-- Projection of a chat result onto what the HTTP client observes: the
event sequence and the escaped exception, dropping the store state. -/
def chatView (r : Except HttpError ChatOutcome) :
    Except HttpError (List Event × Option String) :=
  r.map (fun o => (o.events, o.raised))

/-- An OIDC discovery document, reduced to the field the code reads
(`jwks_uri`; `none` covers a missing or non-string value). -/
structure DiscoveryDoc where
  jwks_uri : Option String
deriving Repr, DecidableEq

/-- The relevant authentication settings (`settings.oauth2_jwks_url`,
`settings.oauth2_issuer`); both are optional strings checked by Python
truthiness. -/
structure AuthSettings where
  oauth2_jwks_url : Option String
  oauth2_issuer : Option String
deriving Repr, DecidableEq

/-- The module-level `_discovery_cache`: issuer, expiry time, document. -/
abbrev DiscoveryCache : Type := List (String × Nat × DiscoveryDoc)

/-- Dictionary lookup in the discovery cache. -/
def cacheLookup (cache : DiscoveryCache) (issuer : String) : Option (Nat × DiscoveryDoc) :=
  (List.find? (fun e => decide (e.1 = issuer)) cache).map (fun e => e.2)

/-- Dictionary assignment in the discovery cache. -/
def cacheStore (cache : DiscoveryCache) (issuer : String) (entry : Nat × DiscoveryDoc) :
    DiscoveryCache :=
  (issuer, entry) :: List.filter (fun e => !decide (e.1 = issuer)) cache

/-- `auth._get_discovery`: serve a live cache entry (`expires_at > now`),
else fetch and cache under a 3600s TTL. -/
def getDiscovery (cache : DiscoveryCache) (fetch : String → DiscoveryDoc) (now : Nat)
    (issuer : String) : DiscoveryDoc × DiscoveryCache :=
  match cacheLookup cache issuer with
  | some entry =>
    if now < entry.1 then (entry.2, cache)
    else
      let d := fetch issuer
      (d, cacheStore cache issuer (now + 3600, d))
  | none =>
      let d := fetch issuer
      (d, cacheStore cache issuer (now + 3600, d))

/-- Tail of `auth._jwks_url_from_token`: run discovery for the issuer and
extract a truthy `jwks_uri` (the document is cached even when the field is
missing). -/
def discoveryJwksUri (cache : DiscoveryCache) (fetch : String → DiscoveryDoc) (now : Nat)
    (iss : String) : Except String String × DiscoveryCache :=
  let r := getDiscovery cache fetch now iss
  match truthy r.1.jwks_uri with
  | some u => (Except.ok u, r.2)
  | none => (Except.error "OIDC discovery missing jwks_uri", r.2)

/-- `auth._jwks_url_from_token`: a statically configured JWKS URL wins;
otherwise the token's `iss` claim is required, checked against the
configured issuer when one is set (mismatch raises before any discovery
fetch), and then resolved through the discovery cache. -/
def jwksUrlFromToken (s : AuthSettings) (cache : DiscoveryCache)
    (fetch : String → DiscoveryDoc) (now : Nat) (tokenIss : Option String) :
    Except String String × DiscoveryCache :=
  match truthy s.oauth2_jwks_url with
  | some u => (Except.ok u, cache)
  | none =>
    match truthy tokenIss with
    | none => (Except.error "JWT missing iss claim", cache)
    | some iss =>
      match truthy s.oauth2_issuer with
      | some configured =>
        if iss = configured then discoveryJwksUri cache fetch now iss
        else (Except.error "JWT issuer mismatch", cache)
      | none => discoveryJwksUri cache fetch now iss

/-- One `append_message` call in a scripted run: role, content, the
generated message id and the clock value at the time of the INSERT. -/
structure AppendSpec where
  role : String
  content : String
  msgId : String
  at_time : Nat
deriving Repr, DecidableEq

/-- Run a sequence of `append_message` calls for one user and
conversation. -/
def appendAll (db : HistoryDB) (u cid : String) : List AppendSpec → HistoryDB
  | [] => db
  | s :: rest =>
      appendAll (appendMessage db u cid s.role s.content s.msgId s.at_time) u cid rest

/-- The message row produced by one scripted `append_message` call. -/
def specRow (u cid : String) (s : AppendSpec) : MsgRow :=
  ⟨s.msgId, cid, u, s.role, s.content, s.at_time⟩

/-! Concrete fixtures used by counterexamples and witnesses. -/

/-- An empty store. -/
def emptyDb : HistoryDB := ⟨[], [], []⟩

/-- A plain authenticated user. -/
def aliceU : UserIdentity := ⟨"alice", []⟩

/-- A second plain user, not the owner of `att1`. -/
def bobU : UserIdentity := ⟨"bob", []⟩

/-- A member of the configured admin group `"adm"`. -/
def adminU : UserIdentity := ⟨"root", ["adm"]⟩

/-- A user-scope attachment owned by alice. -/
def att1 : Attachment := ⟨"a1", "user", some "alice", "u1", "p1", "f1.txt", none, 3, none, 0⟩

/-- A system-scope attachment. -/
def attSys : Attachment := ⟨"s1", "system", none, "u2", "p2", "doc.pdf", none, 4, none, 0⟩

/-- A store holding the two fixture attachments. -/
def attDb : HistoryDB := ⟨[], [], [att1, attSys]⟩

/-- A store holding one conversation `"X"` owned by alice. -/
def convDbX : HistoryDB := ⟨[⟨"X", "alice", 0⟩], [], []⟩

/-- A scripted run of three appends, the first two sharing a timestamp. -/
def c7specs : List AppendSpec :=
  [⟨"user", "a", "m1", 5⟩, ⟨"assistant", "b", "m2", 5⟩, ⟨"user", "c", "m3", 7⟩]

/-- A retrieval collaborator that reports whether the `top_k` value it was
called with lies in the interval `[1, 20]`. -/
def kProbe : String → Int → List Source :=
  fun _ k =>
    if 1 ≤ k ∧ k ≤ 20 then [⟨"probe", none, "in-range"⟩]
    else [⟨"probe", none, "out-of-range"⟩]

/-! Helper lemmas. -/

/-- `getOrCreate` with an omitted id returns a conversation carrying the
freshly generated id. -/
theorem getOrCreate_none_fst (db : HistoryDB) (u f : String) (t : Nat) :
    (getOrCreate db u none f t).1 = ⟨f⟩ := rfl

/-- `getOrCreate` with a supplied non-empty id returns a conversation
carrying exactly that id. -/
theorem getOrCreate_some_fst (db : HistoryDB) (u X f : String) (t : Nat) (hX : X ≠ "") :
    (getOrCreate db u (some X) f t).1 = ⟨X⟩ := by
  by_cases h : ∃ c ∈ db.conversations, c.conversation_id = X ∧ c.user_id = u
  · simp [getOrCreate, truthy, hX, h]
  · simp [getOrCreate, truthy, hX, h]

/-- `loadAuthorizedAttachments` reads only the attachments table. -/
theorem loadAuth_attachments_only (g : String) (u : UserIdentity)
    (cs cs' : List ConvRow) (ms ms' : List MsgRow) (atts : List Attachment)
    (ids : List String) :
    loadAuthorizedAttachments g ⟨cs, ms, atts⟩ u ids =
      loadAuthorizedAttachments g ⟨cs', ms', atts⟩ u ids := by
  induction ids with
  | nil => rfl
  | cons attId rest ih =>
    have heq : getAttachmentAny ⟨cs, ms, atts⟩ attId =
        getAttachmentAny ⟨cs', ms', atts⟩ attId := rfl
    unfold loadAuthorizedAttachments
    rw [heq]
    cases h : getAttachmentAny ⟨cs', ms', atts⟩ attId with
    | none => exact ih
    | some att => rw [ih]

/-- Stable insertion behind all already-placed rows with an
earlier-or-equal timestamp. -/
theorem insertByCreated_append (m : MsgRow) (acc : List MsgRow)
    (h : ∀ x ∈ acc, x.created_at ≤ m.created_at) :
    insertByCreated m acc = acc ++ [m] := by
  induction acc with
  | nil => rfl
  | cons x xs ih =>
    unfold insertByCreated
    rw [if_pos (h x (by simp))]
    rw [ih (fun y hy => h y (by simp [hy]))]
    rfl

/-- The stable sort leaves an already-sorted row list unchanged. -/
theorem orderByCreated_sorted_id (l : List MsgRow)
    (h : l.Pairwise (fun a b => a.created_at ≤ b.created_at)) :
    orderByCreated l = l := by
  suffices H : ∀ (l acc : List MsgRow),
      (acc ++ l).Pairwise (fun a b => a.created_at ≤ b.created_at) →
      l.foldl (fun acc m => insertByCreated m acc) acc = acc ++ l by
    simpa [orderByCreated] using H l [] (by simpa using h)
  intro l
  induction l with
  | nil => intro acc _; simp
  | cons m rest ih =>
    intro acc hp
    have hsplit := (List.pairwise_append).1 hp
    have hle : ∀ x ∈ acc, x.created_at ≤ m.created_at := by
      intro x hx
      exact hsplit.2.2 x hx m (by simp)
    have step : List.foldl (fun acc m => insertByCreated m acc) acc (m :: rest) =
        List.foldl (fun acc m => insertByCreated m acc) (insertByCreated m acc) rest := rfl
    rw [step, insertByCreated_append m acc hle]
    have := ih (acc ++ [m]) (by simpa using hp)
    simpa using this

/-- Effect of a scripted run of `append_message` on the messages table. -/
theorem appendAll_messages (u cid : String) (specs : List AppendSpec) (db : HistoryDB) :
    (appendAll db u cid specs).messages = db.messages ++ specs.map (specRow u cid) := by
  induction specs generalizing db with
  | nil => simp [appendAll]
  | cons s rest ih =>
    rw [appendAll, ih]
    simp [appendMessage, specRow]

/-! Claim theorems. -/

/-- C5 counterexample: the claim fails at the supplied id `X = ""`.
`HistoryStore._get_or_create` tests the supplied id by Python truthiness
(`if conversation_id:` / `conversation_id or str(uuid.uuid4())`), so an
empty-string id is treated as omitted and two calls with `X = ""` return
two distinct freshly generated conversations instead of the same one. -/
theorem get_or_create_empty_id_cex :
    (getOrCreate emptyDb "alice" (some "") "f1" 0).1 ≠
      (getOrCreate (getOrCreate emptyDb "alice" (some "") "f1" 0).2
        "alice" (some "") "f2" 1).1 := by decide

/-- C5 (amended): for distinct fresh ids, two `get_or_create(user, None)`
calls yield two distinct conversations, and for any supplied non-empty id
`X`, two `get_or_create(user, X)` calls yield the same conversation both
times. -/
theorem get_or_create_idempotent (db : HistoryDB) (u X f1 f2 : String) (t1 t2 : Nat)
    (hX : X ≠ "") (hf : f1 ≠ f2) :
    (getOrCreate db u none f1 t1).1 = ⟨f1⟩
    ∧ (getOrCreate (getOrCreate db u none f1 t1).2 u none f2 t2).1 = ⟨f2⟩
    ∧ (getOrCreate db u none f1 t1).1 ≠
        (getOrCreate (getOrCreate db u none f1 t1).2 u none f2 t2).1
    ∧ (getOrCreate db u (some X) f1 t1).1 =
        (getOrCreate (getOrCreate db u (some X) f1 t1).2 u (some X) f2 t2).1 := by
  refine ⟨getOrCreate_none_fst _ _ _ _, getOrCreate_none_fst _ _ _ _, ?_, ?_⟩
  · rw [getOrCreate_none_fst, getOrCreate_none_fst]
    simp [hf]
  · rw [getOrCreate_some_fst _ _ _ _ _ hX, getOrCreate_some_fst _ _ _ _ _ hX]

/-- C5 witness: the amended idempotence at a concrete store and ids. -/
theorem get_or_create_idempotent_witness :
    (getOrCreate emptyDb "alice" none "f1" 0).1 = ⟨"f1"⟩
    ∧ (getOrCreate (getOrCreate emptyDb "alice" none "f1" 0).2 "alice" none "f2" 1).1 = ⟨"f2"⟩
    ∧ (getOrCreate emptyDb "alice" none "f1" 0).1 ≠
        (getOrCreate (getOrCreate emptyDb "alice" none "f1" 0).2 "alice" none "f2" 1).1
    ∧ (getOrCreate emptyDb "alice" (some "X") "f1" 0).1 =
        (getOrCreate (getOrCreate emptyDb "alice" (some "X") "f1" 0).2
          "alice" (some "X") "f2" 1).1 :=
  get_or_create_idempotent emptyDb "alice" "X" "f1" "f2" 0 1 (by decide) (by decide)

/-- C6 counterexample: user bob supplies id `"X"`, which bob does not own
(it is owned by alice, the only row of `convDbX`), yet
`HistoryStore._get_or_create` returns conversation `"X"` while creating no
row at all: the `INSERT OR IGNORE` keyed on the global `conversation_id`
primary key is ignored because alice's row already holds that key, so no
conversation owned by bob comes into existence. -/
theorem get_or_create_foreign_owner_cex :
    getOrCreate convDbX "bob" (some "X") "f" 5 = (⟨"X"⟩, convDbX)
    ∧ convDbX.conversations = [⟨"X", "alice", 0⟩] := by decide

/-- C6 (amended): for a supplied non-empty id `X` such that no conversation
with id `X` exists under any owner, `get_or_create(u, X)` inserts a row
with id `X` owned by `u` and returns that conversation; when a different
user already owns id `X`, the call instead returns conversation `X`
without creating any row. -/
theorem get_or_create_creates_on_global_miss (db : HistoryDB) (u X f : String) (t : Nat)
    (hX : X ≠ "") (hmiss : ¬ ∃ c ∈ db.conversations, c.conversation_id = X) :
    getOrCreate db u (some X) f t =
      (⟨X⟩, { db with conversations := db.conversations ++ [⟨X, u, t⟩] }) := by
  have howned : ¬ ∃ c ∈ db.conversations, c.conversation_id = X ∧ c.user_id = u := by
    rintro ⟨c, hc, h1, _⟩
    exact hmiss ⟨c, hc, h1⟩
  simp [getOrCreate, truthy, hX, howned, insertOrIgnoreConv, hmiss]

/-- C6 witness: a supplied unknown id becomes a fresh owned row. -/
theorem get_or_create_creates_on_global_miss_witness :
    getOrCreate emptyDb "alice" (some "X") "f" 3 =
      (⟨"X"⟩, { emptyDb with conversations := emptyDb.conversations ++ [⟨"X", "alice", 3⟩] }) :=
  get_or_create_creates_on_global_miss emptyDb "alice" "X" "f" 3 (by decide) (by decide)

/-- C8: with an issuer restriction configured (a truthy
`settings.oauth2_issuer`) and no static JWKS URL, a token issuer that does
not match the configured issuer makes `_jwks_url_from_token` fail with
the issuer-mismatch `AuthError` before any discovery fetch: no discovery
document for that issuer is fetched, the discovery cache is returned
unchanged, and no JWKS URL is resolved. -/
theorem discovery_issuer_mismatch_rejected (s : AuthSettings) (cache : DiscoveryCache)
    (fetch : String → DiscoveryDoc) (now : Nat) (iss configured : String)
    (hstatic : truthy s.oauth2_jwks_url = none)
    (hconf : truthy s.oauth2_issuer = some configured)
    (hiss : iss ≠ "") (hne : iss ≠ configured) :
    jwksUrlFromToken s cache fetch now (some iss) =
      (Except.error "JWT issuer mismatch", cache) := by
  have htr : truthy (some iss) = some iss := by simp [truthy, hiss]
  simp only [jwksUrlFromToken, hstatic, htr, hconf]
  rw [if_neg hne]

/-- C8 witness: a concrete mismatching issuer is rejected with the cache
left empty. -/
theorem discovery_issuer_mismatch_rejected_witness :
    jwksUrlFromToken ⟨none, some "https://idp.example"⟩ [] (fun _ => ⟨none⟩) 0
        (some "https://evil.example") =
      (Except.error "JWT issuer mismatch", ([] : DiscoveryCache)) :=
  discovery_issuer_mismatch_rejected ⟨none, some "https://idp.example"⟩ [] (fun _ => ⟨none⟩)
    0 "https://evil.example" "https://idp.example" rfl rfl (by decide) (by decide)

/-- C2: the pipeline's attachment authorization rule. A system-scope
attachment is readable by any authenticated caller; a user-scope
attachment is readable and deletable exactly by its owner or an admin and
otherwise rejected with HTTP 403; deleting a system-scope attachment
requires admin; and a 403 from attachment resolution inside `/chat` aborts
the whole request before any streaming event is produced. -/
theorem attachment_authorization_enforced :
    (∀ g db u attId att, getAttachmentAny db attId = some att → att.scope = "system" →
        getAttachmentAuthorized g db u attId = Except.ok att)
    ∧ (∀ g db u attId att, getAttachmentAny db attId = some att → att.scope = "user" →
        (att.owner_user_id = some u.user_id ∨ is_admin g u = true) →
        getAttachmentAuthorized g db u attId = Except.ok att)
    ∧ (∀ g db u attId att, getAttachmentAny db attId = some att → att.scope = "user" →
        att.owner_user_id ≠ some u.user_id → is_admin g u = false →
        getAttachmentAuthorized g db u attId = Except.error ⟨403, "Forbidden"⟩)
    ∧ (∀ g db u attId att blob, getAttachmentAny db attId = some att → att.scope = "user" →
        att.owner_user_id ≠ some u.user_id → is_admin g u = false →
        deleteAttachmentRoute g db u attId blob = Except.error ⟨403, "Forbidden"⟩)
    ∧ (∀ g db u attId att blob, getAttachmentAny db attId = some att → att.scope = "system" →
        is_admin g u = false →
        deleteAttachmentRoute g db u attId blob = Except.error ⟨403, "Admin only"⟩)
    ∧ (∀ g db u attId att blob, getAttachmentAny db attId = some att → att.scope = "system" →
        is_admin g u = true →
        deleteAttachmentRoute g db u attId blob =
          Except.ok ("deleted", (deleteAttachmentAnyDb db attId).2))
    ∧ (∀ g db u attId att rest, getAttachmentAny db attId = some att →
        (att.scope = "system" ∨ (att.scope = "user" ∧
          (att.owner_user_id = some u.user_id ∨ is_admin g u = true))) →
        loadAuthorizedAttachments g db u (attId :: rest) =
          (loadAuthorizedAttachments g db u rest).map (fun out => att :: out))
    ∧ (∀ g db u attId att rest, getAttachmentAny db attId = some att →
        att.scope = "user" → att.owner_user_id ≠ some u.user_id → is_admin g u = false →
        loadAuthorizedAttachments g db u (attId :: rest) =
          Except.error ⟨403, "Forbidden attachment access"⟩)
    ∧ (∀ g db u req fc m1 t1 ua e,
        loadAuthorizedAttachments g (celineChatPre db u req fc m1 t1 ua).2 u
            req.attachment_ids = Except.error e →
        ∀ m2 t2 f chunks aa,
          celineChat g db u req fc m1 m2 t1 t2 f chunks ua aa = Except.error e) := by
  refine ⟨?_, ?_, ?_, ?_, ?_, ?_, ?_, ?_, ?_⟩
  · intro g db u attId att hf hs
    simp [getAttachmentAuthorized, hf, hs]
  · intro g db u attId att hf hs hauth
    simp only [getAttachmentAuthorized, hf, hs]
    rw [if_neg (by decide), if_pos (by trivial), if_pos hauth]
  · intro g db u attId att hf hs hne hadm
    simp [getAttachmentAuthorized, hf, hs, hne, hadm]
  · intro g db u attId att blob hf hs hne hadm
    simp [deleteAttachmentRoute, hf, hs, hne, hadm]
  · intro g db u attId att blob hf hs hadm
    simp [deleteAttachmentRoute, hf, hs, hadm]
  · intro g db u attId att blob hf hs hadm
    simp only [deleteAttachmentRoute, hf, hs, hadm]
    rw [if_neg (by simp), if_neg (by simp)]
    cases blob <;> rfl
  · intro g db u attId att rest hf hcase
    rcases hcase with hs | ⟨hs, hauth⟩
    · simp [loadAuthorizedAttachments, hf, hs]
    · simp only [loadAuthorizedAttachments, hf, hs]
      rw [if_neg (by decide), if_pos ⟨trivial, hauth⟩]
  · intro g db u attId att rest hf hs hne hadm
    simp [loadAuthorizedAttachments, hf, hs, hne, hadm]
  · intro g db u req fc m1 t1 ua e hload m2 t2 f chunks aa
    simp [celineChat, hload]

/-- C2 witness: on the fixture store, bob is denied alice's user-scope
attachment, anyone reads the system-scope one, a non-admin cannot delete
it, and the admin can. -/
theorem attachment_authorization_enforced_witness :
    getAttachmentAuthorized "adm" attDb bobU "a1" = Except.error ⟨403, "Forbidden"⟩
    ∧ getAttachmentAuthorized "adm" attDb bobU "s1" = Except.ok attSys
    ∧ deleteAttachmentRoute "adm" attDb bobU "s1" (Except.ok ()) =
        Except.error ⟨403, "Admin only"⟩
    ∧ deleteAttachmentRoute "adm" attDb adminU "s1" (Except.ok ()) =
        Except.ok ("deleted", (deleteAttachmentAnyDb attDb "s1").2) :=
  ⟨attachment_authorization_enforced.2.2.1 "adm" attDb bobU "a1" att1 rfl rfl
      (by decide) rfl,
    attachment_authorization_enforced.1 "adm" attDb bobU "s1" attSys rfl rfl,
    attachment_authorization_enforced.2.2.2.2.1 "adm" attDb bobU "s1" attSys
      (Except.ok ()) rfl rfl rfl,
    attachment_authorization_enforced.2.2.2.2.2.1 "adm" attDb adminU "s1" attSys
      (Except.ok ()) rfl rfl rfl⟩

/-- C9 counterexample: a `/chat` request referencing a nonexistent
attachment id does not fail with 404: `_load_authorized_attachments` skips
unknown ids (`if not att: continue`) and the pipeline completes normally,
emitting `meta` and `done`. -/
theorem chat_skips_unknown_attachment_cex :
    chatView (celineChat "adm" emptyDb aliceU ⟨"q", 5, false, none, ["missing"]⟩
        "c1" "m1" "m2" 0 1 (fun _ _ => []) [] true true) =
      Except.ok ([Event.meta "c1", Event.done], none) := by rfl

/-- C9 (amended): a direct attachment read or delete of an id with no
attachment record fails with HTTP 404 "Attachment not found" (distinct
from the 403 used for authorization violations), while the chat pipeline's
attachment resolution silently skips unknown ids and proceeds. -/
theorem unknown_attachment_not_found :
    (∀ g db u attId, getAttachmentAny db attId = none →
        getAttachmentAuthorized g db u attId = Except.error ⟨404, "Attachment not found"⟩)
    ∧ (∀ g db u attId blob, getAttachmentAny db attId = none →
        deleteAttachmentRoute g db u attId blob = Except.error ⟨404, "Attachment not found"⟩)
    ∧ (∀ g db u attId rest, getAttachmentAny db attId = none →
        loadAuthorizedAttachments g db u (attId :: rest) =
          loadAuthorizedAttachments g db u rest) := by
  refine ⟨?_, ?_, ?_⟩
  · intro g db u attId h
    simp [getAttachmentAuthorized, h]
  · intro g db u attId blob h
    simp [deleteAttachmentRoute, h]
  · intro g db u attId rest h
    simp [loadAuthorizedAttachments, h]

/-- C9 witness: on the empty store, the direct read and the delete of an
unknown id both 404, and the chat-side loader skips it. -/
theorem unknown_attachment_not_found_witness :
    getAttachmentAuthorized "adm" emptyDb bobU "zz" = Except.error ⟨404, "Attachment not found"⟩
    ∧ deleteAttachmentRoute "adm" emptyDb bobU "zz" (Except.ok ()) =
        Except.error ⟨404, "Attachment not found"⟩
    ∧ loadAuthorizedAttachments "adm" emptyDb bobU ["zz"] =
        loadAuthorizedAttachments "adm" emptyDb bobU [] :=
  ⟨unknown_attachment_not_found.1 "adm" emptyDb bobU "zz" rfl,
    unknown_attachment_not_found.2.1 "adm" emptyDb bobU "zz" (Except.ok ()) rfl,
    unknown_attachment_not_found.2.2 "adm" emptyDb bobU "zz" [] rfl⟩

/-- C10: an authorized delete of an existing attachment removes the
metadata row and reports `deleted` for every outcome of the blob deletion:
a failing `delete_upload` is caught and only logged, so the response and
the resulting store state are identical whether the blob deletion
succeeded or raised, and afterwards the attachment record is gone. -/
theorem delete_attachment_blob_failure_swallowed (g : String) (db : HistoryDB)
    (u : UserIdentity) (attId : String) (att : Attachment) (blob : Except String Unit)
    (hfound : getAttachmentAny db attId = some att)
    (hsys : att.scope = "system" → is_admin g u = true)
    (huser : att.scope = "user" → att.owner_user_id ≠ some u.user_id →
      is_admin g u = true) :
    deleteAttachmentRoute g db u attId blob =
        Except.ok ("deleted", (deleteAttachmentAnyDb db attId).2)
    ∧ getAttachmentAny (deleteAttachmentAnyDb db attId).2 attId = none := by
  constructor
  · have h1 : ¬(att.scope = "system" ∧ ¬ is_admin g u = true) := by
      rintro ⟨hs, hna⟩
      exact hna (hsys hs)
    have h2 : ¬(att.scope = "user" ∧ att.owner_user_id ≠ some u.user_id ∧
        ¬ is_admin g u = true) := by
      rintro ⟨hs, hne, hna⟩
      exact hna (huser hs hne)
    simp only [deleteAttachmentRoute, hfound]
    rw [if_neg h1, if_neg h2]
    cases blob <;> rfl
  · simp only [deleteAttachmentAnyDb, hfound]
    simp only [getAttachmentAny]
    rw [List.find?_eq_none]
    intro x hx
    have hmem := List.mem_filter.mp hx
    simpa using hmem.2

/-- C10 witness: alice deletes her own attachment while the blob deletion
raises; the endpoint still reports `deleted` and the row is gone. -/
theorem delete_attachment_blob_failure_swallowed_witness :
    deleteAttachmentRoute "adm" attDb aliceU "a1" (Except.error "disk") =
        Except.ok ("deleted", (deleteAttachmentAnyDb attDb "a1").2)
    ∧ getAttachmentAny (deleteAttachmentAnyDb attDb "a1").2 "a1" = none :=
  delete_attachment_blob_failure_swallowed "adm" attDb aliceU "a1" att1
    (Except.error "disk") rfl (by decide) (by decide)

/-- C4: history persistence is best-effort. The observable outcome of the
celine `/chat` pipeline — HTTP status, the full event sequence and any
exception escaping the stream — is identical whether the inbound-user and
assistant `append_message` INSERTs succeed or raise: both are wrapped in
`try/except` that only logs, so a failure neither aborts the request nor
prevents or alters the streamed answer. -/
theorem chat_history_append_best_effort (g : String) (db : HistoryDB) (u : UserIdentity)
    (req : ChatRequest) (fc m1 m2 : String) (t1 t2 : Nat)
    (f : String → Int → List Source) (chunks : List (Except String String)) (ua aa : Bool) :
    chatView (celineChat g db u req fc m1 m2 t1 t2 f chunks ua aa) =
      chatView (celineChat g db u req fc m1 m2 t1 t2 f chunks true true) := by
  have heq : ∀ (db1 : HistoryDB) (cid : String),
      loadAuthorizedAttachments g
          (appendMessage db1 u.user_id cid "user" req.message m1 t1) u
          req.attachment_ids =
        loadAuthorizedAttachments g db1 u req.attachment_ids := by
    intro db1 cid
    exact loadAuth_attachments_only g u db1.conversations db1.conversations
      (db1.messages ++ [⟨m1, cid, u.user_id, "user", req.message, t1⟩]) db1.messages
      db1.attachments req.attachment_ids
  simp only [celineChat, celineChatPre]
  cases ua <;> cases aa <;>
    simp only [if_true, if_false, Bool.false_eq_true, ite_true, ite_false, heq] <;>
    cases hres : loadAuthorizedAttachments g
        ((getOrCreate db u.user_id req.conversation_id fc t1).2) u req.attachment_ids <;>
    simp only [hres] <;>
    cases hcs : (consumeStream chunks).2 <;>
    simp [chatView, hcs, Except.map]

/-- C1 failing run (code_bug evidence): in the celine `/chat` generator
there is no exception handler, so when the generation stream raises after
one fragment the event sequence ends `[meta, token]` with the exception
escaping — no `error` event and no `done` event, violating the
exactly-one-terminal-event guarantee (the older `src/app/routes.py`
generator wraps the body in `try/except` and yields `error` instead). -/
theorem celine_chat_error_drops_terminal_event :
    chatView (celineChat "adm" emptyDb aliceU ⟨"hello", 5, false, none, []⟩
        "c1" "m1" "m2" 10 11 (fun _ _ => [])
        [Except.ok "Hi", Except.error "boom"] true true) =
      Except.ok ([Event.meta "c1", Event.token "Hi"], some "boom") := by rfl

/-- C3 counterexample: the celine pipeline performs no server-side
clamping of `top_k`. With `top_k = 1000` the retrieval collaborator is
invoked with 1000 itself: the probe retriever, which returns a block
telling whether its argument lay in `[1, 20]`, reports `out-of-range` in
the emitted `sources` event. -/
theorem celine_chat_top_k_unclamped_cex :
    chatView (celineChat "adm" emptyDb aliceU ⟨"q", 1000, true, none, []⟩
        "c1" "m1" "m2" 0 1 kProbe [] true true) =
      Except.ok ([Event.meta "c1",
        Event.sources [⟨"probe", none, "out-of-range"⟩], Event.done], none) := by rfl

/-- C3 (amended): in the app pipeline, request validation rejects `top_k`
outside `[1, 20]` (pydantic `ge`/`le`, a rejection rather than a clamp),
so every request that reaches retrieval carries `top_k ∈ [1, 20]`; the
pipeline's behaviour therefore depends only on the retriever's values on
that interval. The celine pipeline imposes no bound at all. -/
theorem app_chat_top_k_validated (message : String) (cidOpt : Option String) (cite : Bool)
    (k : Int) (req : ChatRequest)
    (h : appValidateChatRequest message cidOpt cite k = some req)
    (db : HistoryDB) (u : UserIdentity) (fc m1 m2 : String) (t1 t2 : Nat)
    (f fAgree : String → Int → List Source) (chunks : List (Except String String))
    (ua aa : Bool)
    (hfg : ∀ q j, 1 ≤ j → j ≤ 20 → f q j = fAgree q j) :
    (1 ≤ req.top_k ∧ req.top_k ≤ 20)
    ∧ appChat db u req fc m1 m2 t1 t2 f chunks ua aa =
        appChat db u req fc m1 m2 t1 t2 fAgree chunks ua aa := by
  unfold appValidateChatRequest at h
  by_cases hc : message ≠ "" ∧ 1 ≤ k ∧ k ≤ 20
  · rw [if_pos hc] at h
    obtain ⟨hmsg, h1, h2⟩ := hc
    injection h with h
    subst h
    exact ⟨⟨h1, h2⟩, by simp only [appChat, hfg message k h1 h2]⟩
  · rw [if_neg hc] at h
    simp at h

/-- C3 witness: an in-range request validates and the pipeline cannot
distinguish retrievers that agree on `[1, 20]`. -/
theorem app_chat_top_k_validated_witness :
    ((1 : Int) ≤ (ChatRequest.mk "hi" 5 true none []).top_k
      ∧ (ChatRequest.mk "hi" 5 true none []).top_k ≤ 20)
    ∧ appChat emptyDb aliceU ⟨"hi", 5, true, none, []⟩ "c" "m1" "m2" 0 1
          (fun _ _ => []) [] true true =
        appChat emptyDb aliceU ⟨"hi", 5, true, none, []⟩ "c" "m1" "m2" 0 1
          (fun _ _ => []) [] true true :=
  app_chat_top_k_validated "hi" none true 5 ⟨"hi", 5, true, none, []⟩ rfl emptyDb aliceU
    "c" "m1" "m2" 0 1 (fun _ _ => []) (fun _ _ => []) [] true true
    (fun _ _ _ _ => rfl)

/-- C7: appending m1..mN for one conversation with non-decreasing clock
values into a store with no prior messages for that user and conversation,
`list_messages` returns exactly those rows in insertion order (so ties on
`created_at` keep insertion order) and the returned `created_at` values
are non-decreasing. -/
theorem list_messages_ordering (db : HistoryDB) (u cid : String) (specs : List AppendSpec)
    (limit : Nat)
    (hclean : db.messages.filter
        (fun m => decide (m.user_id = u ∧ m.conversation_id = cid)) = [])
    (hmono : specs.Pairwise (fun a b => a.at_time ≤ b.at_time))
    (hlimit : specs.length ≤ limit) :
    listMessages (appendAll db u cid specs) u cid limit = specs.map (specRow u cid)
    ∧ (specs.map (specRow u cid)).Pairwise (fun a b => a.created_at ≤ b.created_at) := by
  have hpw : (specs.map (specRow u cid)).Pairwise
      (fun a b => a.created_at ≤ b.created_at) := by
    rw [List.pairwise_map]
    exact hmono
  refine ⟨?_, hpw⟩
  have hfilter : (specs.map (specRow u cid)).filter
      (fun m => decide (m.user_id = u ∧ m.conversation_id = cid)) =
        specs.map (specRow u cid) := by
    apply List.filter_eq_self.mpr
    intro x hx
    obtain ⟨s, hs, rfl⟩ := List.mem_map.mp hx
    simp [specRow]
  unfold listMessages
  rw [appendAll_messages, List.filter_append, hclean, List.nil_append, hfilter,
    orderByCreated_sorted_id _ hpw]
  exact List.take_of_length_le (by simpa using hlimit)

/-- C7 witness: three appends, the first two sharing a timestamp, come
back in insertion order with non-decreasing timestamps. -/
theorem list_messages_ordering_witness :
    listMessages (appendAll emptyDb "alice" "conv" c7specs) "alice" "conv" 10 =
        c7specs.map (specRow "alice" "conv")
    ∧ (c7specs.map (specRow "alice" "conv")).Pairwise
        (fun a b => a.created_at ≤ b.created_at) :=
  list_messages_ordering emptyDb "alice" "conv" c7specs 10 rfl (by decide) (by decide)

end CelineAssistant
